import Mathlib

/-!
Verification of the QASM → QuMIS compiler
(`pycqed/instrument_drivers/physical_instruments/_controlbox/qasm_compiler.py`).

The Python source is embedded shallowly: each method of `QASM_QuMIS_Compiler`
becomes a Lean function over explicit state, Python exceptions become an
`Except PyError` result, and Python lists/dicts become Lean lists
(association lists for dicts).  The source file is truncated inside
`assign_timing_to_events` (the `elif` for channel operations stops
mid-expression and the remainder of the method is missing); the missing
pieces are modelled from the specification and marked as such below.
-/

namespace QasmCompiler

/-- `EventType` enum from the source. -/
inductive EventType where
  | NONE_EVENT
  | DECLARE
  | MAP
  | WAIT
  | RF
  | FLUX
  | MSMT
deriving DecidableEq, Repr

/-- A Python value appearing in an event's parameter list: parameters start
as strings and are replaced by integers by the wait-conversion in
`line_to_event` and by `map_qubits`. -/
inductive Param where
  | str : String → Param
  | int : Int → Param
deriving DecidableEq, Repr

/-- `qasm_event` from the source. -/
structure qasm_event where
  line_number : Nat
  event_type : EventType
  name : String
  params : List Param
  duration : Nat
deriving DecidableEq, Repr

/-- `prog_line` from the source. -/
structure prog_line where
  number : Nat
  content : String
deriving DecidableEq, Repr

/-- `time_point` from the source.  `pre_waiting_time` holds whatever Python
value the source assigns (`params[0]`, which is an int after wait
conversion, or the int constant `INIT_WAITING_TIME`). -/
structure time_point where
  label : Option String := none
  absolute_time : Option Int := none
  pre_waiting_time : Option Param := none
  parallel_events : List qasm_event := []
deriving DecidableEq, Repr

/-- The Python exceptions raised by the compiler.  `syntaxError` carries the
`filename` and `lineno` attributes the source attaches (either may be
absent); `valueError` as raised in the source carries no line number;
`unboundLocal` models Python's `UnboundLocalError` when a name that was
never assigned is raised (`raise se` at the negative-wait check);
`keyError` models a failing dict lookup. -/
inductive PyError where
  | syntaxError (msg : String) (filename : Option String) (lineno : Option Nat)
  | valueError (msg : String)
  | unboundLocal (nm : String)
  | keyError (key : Param)
deriving DecidableEq, Repr

deriving instance DecidableEq for Except

/-! ### String helpers (Python `str` methods used by the source,
implemented over `List Char` so that every run of the compiler can be
evaluated inside the kernel) -/

/-- The characters stripped by the source's `strip(' \t\n\r')` calls. -/
def pyStripChars : List Char := [' ', '\t', '\n', '\r']

/-- Python `s.strip(' \t\n\r')`. -/
def pyStrip (s : String) : String :=
  String.mk (((s.toList.dropWhile (· ∈ pyStripChars)).reverse.dropWhile
    (· ∈ pyStripChars)).reverse)

/-- Split a character list at every character satisfying `p`, keeping
empty pieces (the behaviour of Python `split` with an explicit
separator). -/
def splitByAux (p : Char → Bool) : List Char → List Char → List (List Char)
  | [], acc => [acc.reverse]
  | c :: rest, acc =>
    if p c then acc.reverse :: splitByAux p rest []
    else splitByAux p rest (c :: acc)

/-- Python `s.split(sep)` for a one-character separator (the source only
splits on `'#'` and `'|'`). -/
def pySplitOnChar (sep : Char) (s : String) : List String :=
  (splitByAux (· = sep) s.toList []).map String.mk

/-- Python `s.split()` with no argument: split on whitespace runs,
discarding empty pieces. -/
def pySplitWS (s : String) : List String :=
  ((splitByAux (· ∈ pyStripChars) s.toList []).map String.mk).filter (· ≠ "")

/-- Python `s.replace(old, new)` for one-character arguments (the source
only replaces `','` by `' '`). -/
def pyReplaceChar (old new : Char) (s : String) : String :=
  String.mk (s.toList.map (fun c => if c = old then new else c))

/-- Python `c.lower()` on an ASCII character. -/
def pyCharLower (c : Char) : Char :=
  if 'A' ≤ c ∧ c ≤ 'Z' then Char.ofNat (c.toNat + 32) else c

/-- Python `s.lower()` (the QASM language is ASCII). -/
def pyLower (s : String) : String :=
  String.mk (s.toList.map pyCharLower)

/-- Value of a decimal digit string. -/
def digitsToNat (l : List Char) : Nat :=
  l.foldl (fun acc c => acc * 10 + (c.toNat - Char.toNat '0')) 0

/-- Python `int(s)` on a token: optional sign followed by decimal digits
(`none` when `int(s)` would raise `ValueError`). -/
def parseInt? (s : String) : Option Int :=
  match (pyStrip s).toList with
  | [] => none
  | c :: rest =>
    if c = '-' then
      if rest ≠ [] ∧ rest.all (·.isDigit) then some (-(digitsToNat rest : Int)) else none
    else if c = '+' then
      if rest ≠ [] ∧ rest.all (·.isDigit) then some ((digitsToNat rest : Int)) else none
    else if (c :: rest).all (·.isDigit) then some ((digitsToNat (c :: rest) : Int)) else none

/-- `is_int` from the source. -/
def is_int (s : String) : Bool := (parseInt? s).isSome

/-! ### Configuration (`load_config`) -/

/-- An entry of the built-in or user operation dictionary after type
resolution: `parameters` (−1 means variable), `type`, optional fixed
`duration`. -/
structure OpSpec where
  parameters : Int
  type : EventType
  duration : Nat := 0
deriving DecidableEq, Repr

/-- `default_op_dict` from the source. -/
def default_op_dict : List (String × OpSpec) :=
  [("I", ⟨1, EventType.WAIT, 0⟩),
   ("qubit", ⟨-1, EventType.DECLARE, 0⟩),
   ("Init_all", ⟨0, EventType.WAIT, 0⟩),
   ("Measure", ⟨1, EventType.MSMT, 300⟩),
   ("Map", ⟨2, EventType.MAP, 0⟩)]

/-- A user operation entry as it appears in the configuration document:
the `type` field is still a string. -/
structure UserOpSpec where
  parameters : Int
  typeName : String
  duration : Nat := 0
deriving DecidableEq, Repr

/-- `"hardware specification"` of the configuration document.  The
`qubit list` is typed as integers here, so the source's
`is_integer_array` check always passes in this embedding. -/
structure HardwareSpec where
  qubit_list : List Int
  cycle_time : Int
deriving DecidableEq, Repr

/-- The configuration document (already JSON-decoded). -/
structure ConfigData where
  operation_dictionary : List (String × UserOpSpec)
  hardware_specification : HardwareSpec
deriving DecidableEq, Repr

/-- `user_op_type` from the source. -/
def user_op_type : List (String × EventType) :=
  [("rf", EventType.RF), ("flux", EventType.FLUX), ("measurement", EventType.MSMT)]

/-- The state `load_config` leaves on the compiler. -/
structure LoadedConfig where
  qasm_op_dict : List (String × OpSpec)
  physical_qubits : List Int
  cycle_time : Int
deriving DecidableEq, Repr

/-- `lower_dict_key` from the source. -/
def lower_dict_key (d : List (String × OpSpec)) : List (String × OpSpec) :=
  d.map (fun kv => (pyLower kv.1, kv.2))

/-- The loop over `user_qasm_op_dict` in `load_config`: resolve each user
operation's `type` string, failing with the source's `SyntaxError`
(filename only, no line number) on an unknown type. -/
def load_user_ops (config_filename : String) :
    List (String × UserOpSpec) → Except PyError (List (String × OpSpec))
  | [] => .ok []
  | (k, op) :: rest =>
    match user_op_type.lookup op.typeName with
    | none =>
      .error (.syntaxError ("unsupported operation type (" ++ op.typeName ++ ") found.")
        (some config_filename) none)
    | some t =>
      match load_user_ops config_filename rest with
      | .error e => .error e
      | .ok r => .ok ((k, OpSpec.mk op.parameters t op.duration) :: r)

/-- Python `{**d, **u}`: user entries override built-in ones on key
collision. -/
def merge_dicts (d u : List (String × OpSpec)) : List (String × OpSpec) :=
  (d.filter (fun kv => (u.lookup kv.1).isNone)) ++ u

/-- `load_config` from the source: resolve user operation types, merge with
the built-in dictionary, lower-case the keys, then validate the hardware
specification (the `qubit list` integer-array check is trivially true in
this typed embedding; the `cycle time` must be a positive number, else the
source raises a bare `ValueError`). -/
def load_config (cfg : ConfigData) (config_filename : String) :
    Except PyError LoadedConfig :=
  match load_user_ops config_filename cfg.operation_dictionary with
  | .error e => .error e
  | .ok user =>
    let dict := lower_dict_key (merge_dicts default_op_dict user)
    if 0 < cfg.hardware_specification.cycle_time then
      .ok ⟨dict, cfg.hardware_specification.qubit_list, cfg.hardware_specification.cycle_time⟩
    else
      .error (.valueError "cycle time in the configuration file is not a positive number.")

/-! ### Lexer (`read_file`) -/

/-- `remove_comment` from the source: drop everything after `#`, then
strip. -/
def remove_comment (line : String) : String :=
  pyStrip ((pySplitOnChar '#' line).headD "")

/-- `read_file` from the source, reading from a list of lines: returns
`raw_lines` (stripped, every line) and `prog_lines` (comments removed,
lower-cased, blank lines dropped), both keeping the original line
numbers. -/
def read_file (lines : List String) : List prog_line × List prog_line :=
  let raw := lines.enum.map (fun p => prog_line.mk p.1 (pyStrip p.2))
  let prog := (lines.enum.map
      (fun p => prog_line.mk p.1 (pyLower (remove_comment p.2)))).filter
    (fun l => l.content ≠ "")
  (raw, prog)

/-! ### Event parser (`line_to_event` and helpers) -/

/-- `get_parallel_qasm_ops` from the source. -/
def get_parallel_qasm_ops (op_line : String) : List String :=
  (pySplitOnChar '|' op_line).map (fun rawEle => pyStrip (pyReplaceChar ',' ' ' rawEle))

/-- `get_qasm_op_name` from the source: raises a bare `ValueError` on an
empty operation (the `IndexError` arm is unreachable for stripped
non-empty input). -/
def get_qasm_op_name (qasm_op : String) : Except PyError String :=
  if qasm_op = "" then .error (.valueError "QASM operation cannot be empty")
  else
    match (pySplitWS qasm_op).head? with
    | some t => .ok t
    | none => .error (.valueError "IndexError")

/-- `get_qasm_op_params` from the source. -/
def get_qasm_op_params (qasm_op : String) : Except PyError (List String) :=
  if qasm_op = "" then .error (.valueError "QASM operation cannot be empty")
  else .ok (pySplitWS qasm_op).tail

/-- `is_single_line_op` from the source. -/
def is_single_line_op (qasm_op_type : EventType) : Bool :=
  qasm_op_type = EventType.WAIT ∨ qasm_op_type = EventType.DECLARE ∨
    qasm_op_type = EventType.MAP

/-- The body of the `for e in events` loop of `line_to_event`, for one
parallel segment `e` of a line with `numEvents` segments in total.  The
checks appear in source order: operation-name lookup, the
single-line-exclusive check, the `qubit` arity check, the general arity
check, and the wait-operand conversion.  At the negative-wait check the
source builds a `ValueError` carrying the line number but executes
`raise se` where `se` was never assigned, so Python raises an
`UnboundLocalError` instead. -/
def parse_op (opDict : List (String × OpSpec)) (fname : Option String)
    (lineNo : Nat) (numEvents : Nat) (e : String) : Except PyError qasm_event :=
  match get_qasm_op_name e with
  | .error err => .error err
  | .ok qasm_op_name =>
    match opDict.lookup qasm_op_name with
    | none =>
      .error (.syntaxError ("unsuppported QASM operation " ++ qasm_op_name ++ ".")
        fname (some lineNo))
    | some opSpec =>
      if is_single_line_op opSpec.type = true ∧ numEvents ≠ 1 then
        .error (.syntaxError
          ("QASM instruction " ++ qasm_op_name ++ " should exclusively occupy a line.")
          fname (some lineNo))
      else
        match get_qasm_op_params e with
        | .error err => .error err
        | .ok qasm_op_params =>
          if qasm_op_name = "qubit" ∧ qasm_op_params.length < 1 then
            .error (.syntaxError
              "the QASM instruction qubit should contain at least one parameter as the declared qubit."
              fname (some lineNo))
          else if qasm_op_name ≠ "qubit" ∧ (qasm_op_params.length : Int) ≠ opSpec.parameters then
            .error (.syntaxError
              ("unexpected number of parameters for the QASM instruction " ++ qasm_op_name ++ ".")
              fname (some lineNo))
          else if opSpec.type = EventType.WAIT ∧ opSpec.parameters = 1 then
            match qasm_op_params with
            | [tok] =>
              match parseInt? tok with
              | none =>
                .error (.syntaxError ("parameter " ++ tok ++ " is not an integer.")
                  fname (some lineNo))
              | some n =>
                if n < 0 then .error (.unboundLocal "se")
                else .ok (qasm_event.mk lineNo opSpec.type qasm_op_name [Param.int n] 0)
            | _ => .error (.valueError "values to unpack")
          else .ok (qasm_event.mk lineNo opSpec.type qasm_op_name (qasm_op_params.map Param.str) 0)

/-- The per-line loop of `line_to_event`: parse each parallel segment in
order, aborting at the first error. -/
def line_to_event_ops (opDict : List (String × OpSpec)) (fname : Option String)
    (lineNo : Nat) (numEvents : Nat) : List String → Except PyError (List qasm_event)
  | [] => .ok []
  | e :: rest =>
    match parse_op opDict fname lineNo numEvents e with
    | .error err => .error err
    | .ok ev =>
      match line_to_event_ops opDict fname lineNo numEvents rest with
      | .error err => .error err
      | .ok evs => .ok (ev :: evs)

/-- One iteration of `line_to_event`'s outer loop: split the line on the
parallel separator and parse every segment. -/
def line_to_event_line (opDict : List (String × OpSpec)) (fname : Option String)
    (line : prog_line) : Except PyError (List qasm_event) :=
  let events := get_parallel_qasm_ops line.content
  line_to_event_ops opDict fname line.number events.length events

/-- The outer loop of `line_to_event` over `prog_lines`: the events of the
lines parsed before an error are kept (the source appends to
`self.raw_event_list` as it goes). -/
def parse_lines (opDict : List (String × OpSpec)) (fname : Option String) :
    List prog_line → List (List qasm_event) × Option PyError
  | [] => ([], none)
  | l :: rest =>
    match line_to_event_line opDict fname l with
    | .error e => ([], some e)
    | .ok evs =>
      let r := parse_lines opDict fname rest
      (evs :: r.1, r.2)

/-! ### Qubit resolver (`resolve_qubit_name` = `build_qubit_map` + `map_qubits`) -/

/-- The mutable resolver state on the compiler object: `declared_qubits`
and `qubit_map` (set up in `__init__`, mutated by the resolver). -/
structure ResolverState where
  declared_qubits : List Param
  qubit_map : List (Param × Int)
deriving DecidableEq, Repr

/-- The `for q in raw_event.params` loop of `extend_dec_qubit_list`:
append each parameter to the declared list, failing with the
`Redefinition` `SyntaxError` (carrying the event's line number) when it is
already present. -/
def extend_dec_params (fname : Option String) (lineNo : Nat) :
    List Param → List Param → Except PyError (List Param)
  | declared, [] => .ok declared
  | declared, q :: rest =>
    if 0 < declared.count q then
      .error (.syntaxError "Redefinition of qubit." fname (some lineNo))
    else extend_dec_params fname lineNo (declared ++ [q]) rest

/-- `extend_dec_qubit_list` from the source: append the event's parameters
to `declared_qubits`, then check the declared count against the physical
qubit count (that `SyntaxError` carries the filename but no line
number). -/
def extend_dec_qubit_list (phys : List Int) (fname : Option String)
    (st : ResolverState) (raw_event : qasm_event) : Except PyError ResolverState :=
  match extend_dec_params fname raw_event.line_number st.declared_qubits raw_event.params with
  | .error e => .error e
  | .ok declared =>
    if phys.length < declared.length then
      .error (.syntaxError "More qubits declared than available physical qubits." fname none)
    else .ok { st with declared_qubits := declared }

/-- Python `int(x)` applied to an event parameter (`is_int` / the
`int(phys_qubit)` conversion in `add_qubit_map`). -/
def paramToInt? : Param → Option Int
  | .str s => parseInt? s
  | .int n => some n

/-- `add_qubit_map` from the source.  Checks, in order: the logical qubit
is declared; it is not already a key of `qubit_map`; the physical qubit
parses as an integer; the physical qubit is in the configured list.  The
source never checks that the physical qubit is unclaimed by another
logical qubit.  A parameter list that is not a pair fails like Python's
tuple unpacking. -/
def add_qubit_map (phys : List Int) (fname : Option String)
    (st : ResolverState) (raw_event : qasm_event) : Except PyError ResolverState :=
  match raw_event.params with
  | [dec_qubit, phys_qubit] =>
    if dec_qubit ∈ st.declared_qubits then
      if dec_qubit ∈ st.qubit_map.map Prod.fst then
        .error (.syntaxError "remapping of the qubit." fname (some raw_event.line_number))
      else
        match paramToInt? phys_qubit with
        | none =>
          .error (.syntaxError "the target qubit is not an integer." fname
            (some raw_event.line_number))
        | some n =>
          if n ∈ phys then
            .ok { st with qubit_map := st.qubit_map ++ [(dec_qubit, n)] }
          else
            .error (.syntaxError "physical qubit is not available." fname
              (some raw_event.line_number))
    else
      .error (.syntaxError "undefined qubit found." fname (some raw_event.line_number))
  | _ => .error (.valueError "values to unpack")

/-- The body of `build_qubit_map`'s inner `for raw_event in raw_events`
loop: a Declare or Map event is consumed and line `i` is popped from the
event list; any other event advances `i` by one.  Note this advances `i`
once per event, not once per line. -/
def build_step (phys : List Int) (fname : Option String)
    (acc : List (List qasm_event) × Nat × ResolverState) (raw_event : qasm_event) :
    Except PyError (List (List qasm_event) × Nat × ResolverState) :=
  if raw_event.event_type = EventType.DECLARE then
    match extend_dec_qubit_list phys fname acc.2.2 raw_event with
    | .error e => .error e
    | .ok st2 => .ok (acc.1.eraseIdx acc.2.1, acc.2.1, st2)
  else if raw_event.event_type = EventType.MAP then
    match add_qubit_map phys fname acc.2.2 raw_event with
    | .error e => .error e
    | .ok st2 => .ok (acc.1.eraseIdx acc.2.1, acc.2.1, st2)
  else .ok (acc.1, acc.2.1 + 1, acc.2.2)

/-- The inner loop of `build_qubit_map` over the events of the line that
was at index `i` when the iteration started (Python iterates the list
object extracted before any pop). -/
def build_line (phys : List Int) (fname : Option String) :
    List qasm_event → List (List qasm_event) × Nat × ResolverState →
      Except PyError (List (List qasm_event) × Nat × ResolverState)
  | [], acc => .ok acc
  | ev :: rest, acc =>
    match build_step phys fname acc ev with
    | .error e => .error e
    | .ok acc2 => build_line phys fname rest acc2

/-- The `while i < len(self.raw_event_list)` loop of `build_qubit_map`,
made total with a fuel parameter (a Python run that terminates is
reproduced by any sufficiently large fuel; exhausted fuel is reported as
an error so that no theorem can mistake an unfinished run for a completed
one). -/
def build_qubit_map_loop (phys : List Int) (fname : Option String) :
    Nat → List (List qasm_event) → Nat → ResolverState →
      Except PyError (List (List qasm_event) × ResolverState)
  | 0, _, _, _ => .error (.valueError "fuel exhausted")
  | fuel + 1, lst, i, st =>
    if h : i < lst.length then
      match build_line phys fname (lst.get ⟨i, h⟩) (lst, i, st) with
      | .error e => .error e
      | .ok (lst2, i2, st2) => build_qubit_map_loop phys fname fuel lst2 i2 st2
    else .ok (lst, st)

/-- `build_qubit_map` from the source, starting from the compiler's
current resolver state.  The fuel bound suffices for every terminating
run of the source loop on these inputs. -/
def build_qubit_map (phys : List Int) (fname : Option String)
    (raw_event_list : List (List qasm_event)) (st : ResolverState) :
    Except PyError (List (List qasm_event) × ResolverState) :=
  build_qubit_map_loop phys fname
    (raw_event_list.length + (raw_event_list.map List.length).sum + 1)
    raw_event_list 0 st

/-- The list comprehension in `map_qubits`: replace each parameter by its
physical qubit via the qubit map, raising `KeyError` on a missing key. -/
def resolve_params (qmap : List (Param × Int)) : List Param → Except PyError (List Param)
  | [] => .ok []
  | p :: rest =>
    match qmap.lookup p with
    | none => .error (.keyError p)
    | some n =>
      match resolve_params qmap rest with
      | .error e => .error e
      | .ok ps => .ok (Param.int n :: ps)

/-- The inner loop of `map_qubits` over one line's events, with the
accumulated `timing_events` list: Wait events are kept as they are;
RF/Flux/Measurement events have their parameters rewritten to physical
qubit integers and are kept; every other event (Declare, Map, …) is
dropped. -/
def map_qubits_line (qmap : List (Param × Int)) :
    List qasm_event → List qasm_event → Except PyError (List qasm_event)
  | acc, [] => .ok acc
  | acc, ev :: rest =>
    if ev.event_type = EventType.WAIT then
      map_qubits_line qmap (acc ++ [ev]) rest
    else if ev.event_type = EventType.RF ∨ ev.event_type = EventType.FLUX ∨
        ev.event_type = EventType.MSMT then
      match resolve_params qmap ev.params with
      | .error e => .error e
      | .ok ps => map_qubits_line qmap (acc ++ [{ ev with params := ps }]) rest
    else map_qubits_line qmap acc rest

/-- `map_qubits` from the source: build `timing_event_list` line by
line. -/
def map_qubits (qmap : List (Param × Int)) :
    List (List qasm_event) → Except PyError (List (List qasm_event))
  | [] => .ok []
  | evs :: rest =>
    match map_qubits_line qmap [] evs with
    | .error e => .error e
    | .ok tline =>
      match map_qubits qmap rest with
      | .error e => .error e
      | .ok r => .ok (tline :: r)

/-! ### Timing assigner (`assign_timing_to_events`) -/

/-- `INIT_WAITING_TIME` from the source (ns). -/
def INIT_WAITING_TIME : Int := 200000

/-- One step of `assign_timing_to_events` on a single event.  The Wait
branch is translated from the source: the current `time_point` is
appended to the grid and a fresh one is started whose `pre_waiting_time`
is `params[0]` for a one-parameter wait, or `INIT_WAITING_TIME` for
`init_all`, else a `SyntaxError`; the source reads the operation
dictionary at the event's name (written `timing_event.qasm_op_name` in
the source; the event attribute is `name`).  The non-Wait branch is the
`elif` that is truncated in the source file.  Modelled from the spec:
channel operations attach to the currently open slot (spec section 4.5);
this is the only behaviour of the missing branch the specification
gives. -/
def timing_step (opDict : List (String × OpSpec)) (fname : Option String)
    (grid : List time_point) (tp : time_point) (timing_event : qasm_event) :
    Except PyError (List time_point × time_point) :=
  if timing_event.event_type = EventType.WAIT then
    let grid2 := grid ++ [tp]
    match opDict.lookup timing_event.name with
    | none => .error (.keyError (Param.str timing_event.name))
    | some opSpec =>
      if opSpec.parameters = 1 then
        match timing_event.params.head? with
        | some p => .ok (grid2, { pre_waiting_time := some p })
        | none => .error (.valueError "IndexError")
      else if timing_event.name = "init_all" then
        .ok (grid2, { pre_waiting_time := some (Param.int INIT_WAITING_TIME) })
      else
        .error (.syntaxError "unsupported instruction found." fname
          (some timing_event.line_number))
  else
    .ok (grid, { tp with parallel_events := tp.parallel_events ++ [timing_event] })

/-- The inner loop of `assign_timing_to_events` over one line's events. -/
def timing_loop (opDict : List (String × OpSpec)) (fname : Option String) :
    List qasm_event → List time_point → time_point →
      Except PyError (List time_point × time_point)
  | [], grid, tp => .ok (grid, tp)
  | ev :: rest, grid, tp =>
    match timing_step opDict fname grid tp ev with
    | .error e => .error e
    | .ok (grid2, tp2) => timing_loop opDict fname rest grid2 tp2

/-- The outer loop of `assign_timing_to_events` over `timing_event_list`. -/
def timing_loop_lines (opDict : List (String × OpSpec)) (fname : Option String) :
    List (List qasm_event) → List time_point → time_point →
      Except PyError (List time_point × time_point)
  | [], grid, tp => .ok (grid, tp)
  | evs :: rest, grid, tp =>
    match timing_loop opDict fname evs grid tp with
    | .error e => .error e
    | .ok (grid2, tp2) => timing_loop_lines opDict fname rest grid2 tp2

/-- `assign_timing_to_events` from the source: start from an empty grid
and a fresh `time_point`, run the nested loops, and flush the last open
slot.  Modelled from the spec: the final flush belongs to the part of the
method that is truncated in the source file; without it the events after
the last wait would be dropped, while the spec makes every channel
operation belong to a slot. -/
def assign_timing_to_events (opDict : List (String × OpSpec)) (fname : Option String)
    (timing_event_list : List (List qasm_event)) : Except PyError (List time_point) :=
  match timing_loop_lines opDict fname timing_event_list [] {} with
  | .error e => .error e
  | .ok (grid, tp) => .ok (grid ++ [tp])

/-! ### The compiler object and `compile` -/

/-- The fields of `QASM_QuMIS_Compiler` that the pipeline reads or
writes.  `declared_qubits` and `qubit_map` are initialised in `__init__`
(not in `compile`), so they persist across `compile` calls on the same
object; `config_loaded`/`loaded_config` model the per-object caching in
`load_config`.  `qumis_instructions` stays empty because
`convert_to_qumis` is a stub in the source. -/
structure CompilerInstance where
  filename : Option String := none
  raw_lines : Option (List prog_line) := none
  prog_lines : Option (List prog_line) := none
  config_loaded : Bool := false
  loaded_config : Option LoadedConfig := none
  declared_qubits : List Param := []
  qubit_map : List (Param × Int) := []
  raw_event_list : Option (List (List qasm_event)) := none
  timing_event_list : Option (List (List qasm_event)) := none
  timing_grid : Option (List time_point) := none
  qumis_instructions : List String := []
deriving DecidableEq, Repr

/-- `compile` from the source, as a function of the instance state, the
configuration document and the source text.  Stage order is the source's:
`read_file` first, then `line_to_event` (which begins by loading the
configuration), then `resolve_qubit_name` (`build_qubit_map` followed by
`map_qubits`), then `assign_timing_to_events`;
`compensate_channel_latency` is `pass` in the source and the remaining
code-generation stages are stubs or missing from the truncated file, so
the pipeline ends with the timing grid.  On an exception the updated
instance carries the fields assigned before the failing stage, and the
error is returned alongside. -/
def compile (inst : CompilerInstance) (cfg : ConfigData) (config_filename : String)
    (source_lines : List String) : CompilerInstance × Option PyError :=
  let inst := { inst with qumis_instructions := [] }
  let rp := read_file source_lines
  let inst := { inst with raw_lines := some rp.1, prog_lines := some rp.2 }
  match (if inst.config_loaded then
      match inst.loaded_config with
      | some lc => Except.ok lc
      | none => load_config cfg config_filename
    else load_config cfg config_filename) with
  | .error e => (inst, some e)
  | .ok lc =>
    let inst := { inst with config_loaded := true, loaded_config := some lc }
    let parsed := parse_lines lc.qasm_op_dict inst.filename rp.2
    let inst := { inst with raw_event_list := some parsed.1 }
    match parsed.2 with
    | some e => (inst, some e)
    | none =>
      match build_qubit_map lc.physical_qubits inst.filename parsed.1
          ⟨inst.declared_qubits, inst.qubit_map⟩ with
      | .error e => (inst, some e)
      | .ok (remaining, st) =>
        let inst := { inst with raw_event_list := some remaining,
                                declared_qubits := st.declared_qubits,
                                qubit_map := st.qubit_map }
        match map_qubits st.qubit_map remaining with
        | .error e => (inst, some e)
        | .ok tel =>
          let inst := { inst with timing_event_list := some tel }
          match assign_timing_to_events lc.qasm_op_dict inst.filename tel with
          | .error e => (inst, some e)
          | .ok grid => ({ inst with timing_grid := some grid }, none)

/-- A freshly constructed compiler object (`__init__` with a filename). -/
def fresh_compiler : CompilerInstance := { filename := some "test.qasm" }

/-- The merged, lower-cased operation dictionary when the configuration
declares no user operations. -/
def default_loaded_dict : List (String × OpSpec) :=
  lower_dict_key (merge_dicts default_op_dict [])

/-! ### Concrete fixtures used by the claims -/

/-- A configuration with physical qubit list `[0, 1]`, cycle time `1`, and
no user operations. -/
def cfg01 : ConfigData := ⟨[], ⟨[0, 1], 1⟩⟩

/-- The round-trip source program of the specification. -/
def c2_source : List String :=
  ["qubit q0 q1", "Map q0 0", "Map q1 1", "Init_all", "Measure q0", "I 5", "Measure q1"]

end QasmCompiler

open QasmCompiler

/-! ## Helper lemmas about the resolver -/

namespace QasmCompiler

/-- The part of the QubitMap bijection property that the code actually
enforces: each logical qubit is mapped at most once (the keys are
distinct, so the map is a function), and every physical qubit used is a
member of the configured physical qubit list. -/
def QubitMapWellFormed (phys : List Int) (m : List (Param × Int)) : Prop :=
  (m.map Prod.fst).Nodup ∧ ∀ p ∈ m, p.2 ∈ phys

theorem add_qubit_map_wf {phys : List Int} {fname : Option String}
    {st st2 : ResolverState} {raw_event : qasm_event}
    (h : add_qubit_map phys fname st raw_event = .ok st2)
    (hwf : QubitMapWellFormed phys st.qubit_map) :
    QubitMapWellFormed phys st2.qubit_map := by
  unfold add_qubit_map at h
  split at h
  case h_2 => exact absurd h (by simp)
  case h_1 dec_qubit phys_qubit =>
    split at h
    case isFalse => exact absurd h (by simp)
    case isTrue =>
      split at h
      case isTrue => exact absurd h (by simp)
      case isFalse hnk =>
        split at h
        case h_1 => exact absurd h (by simp)
        case h_2 n hn =>
          split at h
          case isFalse => exact absurd h (by simp)
          case isTrue hmem =>
            cases h
            refine ⟨?_, ?_⟩
            · simpa [List.nodup_append, List.disjoint_singleton, hwf.1] using hnk
            · intro p hp
              rcases List.mem_append.mp hp with hp | hp
              · exact hwf.2 p hp
              · simp only [List.mem_singleton] at hp
                subst hp
                exact hmem

theorem extend_dec_qubit_list_map_eq {phys : List Int} {fname : Option String}
    {st st2 : ResolverState} {raw_event : qasm_event}
    (h : extend_dec_qubit_list phys fname st raw_event = .ok st2) :
    st2.qubit_map = st.qubit_map := by
  unfold extend_dec_qubit_list at h
  split at h
  case h_1 => exact absurd h (by simp)
  case h_2 declared _ =>
    split at h
    case isTrue => exact absurd h (by simp)
    case isFalse => cases h; rfl

theorem build_step_wf {phys : List Int} {fname : Option String}
    {acc acc2 : List (List qasm_event) × Nat × ResolverState} {ev : qasm_event}
    (h : build_step phys fname acc ev = .ok acc2)
    (hwf : QubitMapWellFormed phys acc.2.2.qubit_map) :
    QubitMapWellFormed phys acc2.2.2.qubit_map := by
  unfold build_step at h
  split at h
  · cases hd : extend_dec_qubit_list phys fname acc.2.2 ev with
    | error e => rw [hd] at h; exact absurd h (by simp)
    | ok st2 =>
      rw [hd] at h
      cases h
      simpa [extend_dec_qubit_list_map_eq hd] using hwf
  · split at h
    · cases hm : add_qubit_map phys fname acc.2.2 ev with
      | error e => rw [hm] at h; exact absurd h (by simp)
      | ok st2 =>
        rw [hm] at h
        cases h
        exact add_qubit_map_wf hm hwf
    · cases h; exact hwf

theorem build_line_wf {phys : List Int} {fname : Option String} :
    ∀ {evs : List qasm_event} {acc acc2 : List (List qasm_event) × Nat × ResolverState},
      build_line phys fname evs acc = .ok acc2 →
      QubitMapWellFormed phys acc.2.2.qubit_map →
      QubitMapWellFormed phys acc2.2.2.qubit_map := by
  intro evs
  induction evs with
  | nil =>
    intro acc acc2 h hwf
    unfold build_line at h
    cases h
    exact hwf
  | cons ev rest ih =>
    intro acc acc2 h hwf
    unfold build_line at h
    cases hs : build_step phys fname acc ev with
    | error e => rw [hs] at h; exact absurd h (by simp)
    | ok acc1 =>
      rw [hs] at h
      exact ih h (build_step_wf hs hwf)

theorem build_qubit_map_loop_wf {phys : List Int} {fname : Option String} :
    ∀ {fuel : Nat} {lst lst2 : List (List qasm_event)} {i : Nat} {st st2 : ResolverState},
      build_qubit_map_loop phys fname fuel lst i st = .ok (lst2, st2) →
      QubitMapWellFormed phys st.qubit_map →
      QubitMapWellFormed phys st2.qubit_map := by
  intro fuel
  induction fuel with
  | zero =>
    intro lst lst2 i st st2 h
    exact absurd h (by simp [build_qubit_map_loop])
  | succ fuel ih =>
    intro lst lst2 i st st2 h hwf
    unfold build_qubit_map_loop at h
    split at h
    case isTrue hi =>
      cases hl : build_line phys fname (lst.get ⟨i, hi⟩) (lst, i, st) with
      | error e => rw [hl] at h; exact absurd h (by simp)
      | ok acc1 =>
        rw [hl] at h
        obtain ⟨lst1, i1, st1⟩ := acc1
        exact ih h (build_line_wf hl hwf)
    case isFalse =>
      cases h
      exact hwf

end QasmCompiler

/-! ## Claim theorems -/

/-- Claim C2 (confirmed; the channel-operation branch and final flush of
`assign_timing_to_events` are truncated in the source and modelled from the
spec): compiling the round-trip program against physical qubit list
`[0, 1]`, cycle time `1`, succeeds, and the timing grid after the initial
(empty, no-pre-wait) slot is exactly two slots: one with a single Measure
event on physical qubit `0` and pre-wait `200000`, one with a single
Measure event on physical qubit `1` and pre-wait `5`; both Measure events
carry integer physical qubit ids. -/
theorem C2_round_trip :
    (compile fresh_compiler cfg01 "config.json" c2_source).2 = none ∧
    (compile fresh_compiler cfg01 "config.json" c2_source).1.timing_grid =
      some [{},
        { pre_waiting_time := some (Param.int 200000),
          parallel_events := [⟨4, EventType.MSMT, "measure", [Param.int 0], 0⟩] },
        { pre_waiting_time := some (Param.int 5),
          parallel_events := [⟨6, EventType.MSMT, "measure", [Param.int 1], 0⟩] }] := by
  decide

/-- Claim C1, counterexample: the declare/map sequence
`qubit q0 q1; Map q0 0; Map q1 0` is accepted without error, yet it maps
the two distinct logical qubits `q0` and `q1` to the same physical qubit
`0` — `add_qubit_map` never checks that a physical qubit is unclaimed, so
the resulting QubitMap is not injective and not a bijection. -/
theorem C1_counterexample :
    (compile fresh_compiler cfg01 "config.json" ["qubit q0 q1", "Map q0 0", "Map q1 0"]).2 =
      none ∧
    (compile fresh_compiler cfg01 "config.json"
        ["qubit q0 q1", "Map q0 0", "Map q1 0"]).1.qubit_map =
      [(Param.str "q0", 0), (Param.str "q1", 0)] ∧
    Param.str "q0" ≠ Param.str "q1" := by
  decide

/-- Claim C3, counterexample: with the malformed configuration
(cycle time `-1`) and the one-line source `qubit q0`, compilation does
fail in the Configuration Loader, but only after the whole source file has
been read: at the failure the instance's `raw_lines` already holds the
source line, refuting "before any line of the QASM source file is read"
(`compile` runs `read_file` before `line_to_event`, and the configuration
is only loaded at the start of `line_to_event`). -/
theorem C3_counterexample :
    (compile fresh_compiler ⟨[], ⟨[0, 1], -1⟩⟩ "config.json" ["qubit q0"]).2 =
      some (.valueError "cycle time in the configuration file is not a positive number.") ∧
    (compile fresh_compiler ⟨[], ⟨[0, 1], -1⟩⟩ "config.json" ["qubit q0"]).1.raw_lines =
      some [⟨0, "qubit q0"⟩] ∧
    (compile fresh_compiler ⟨[], ⟨[0, 1], -1⟩⟩ "config.json" ["qubit q0"]).1.raw_lines ≠
      none := by
  decide

/-- Claim C5 (code bug), evaluation at the failing input: in the program
`qubit q0; Map q0 0; Measure q0|Measure q0; qubit q0` the logical qubit
`q0` is declared a second time on line 3, yet compilation completes with
no error and `q0` appears only once in the declared list:
`build_qubit_map` advances its line index once per event of the parallel
measure line (twice), skipping the re-declaring line entirely, so
`extend_dec_qubit_list` never sees the duplicate. -/
theorem C5_skipped_redeclaration :
    (compile fresh_compiler cfg01 "config.json"
        ["qubit q0", "Map q0 0", "Measure q0|Measure q0", "qubit q0"]).2 = none ∧
    (compile fresh_compiler cfg01 "config.json"
        ["qubit q0", "Map q0 0", "Measure q0|Measure q0", "qubit q0"]).1.declared_qubits =
      [Param.str "q0"] := by
  decide

/-- Claim C8, counterexample: on the valid program
`qubit q0; Map q0 0; Init_all; Measure q0` the Timing Assigner accepts the
input, the first Wait event is the zero-operand init-all form, yet the
first timing slot's pre-wait is unset (`none`), not `200000`: the slot
carrying `200000` is the second slot.  The first slot appended to the grid
is always the initial fresh `time_point`. -/
theorem C8_counterexample :
    (compile fresh_compiler cfg01 "config.json"
        ["qubit q0", "Map q0 0", "Init_all", "Measure q0"]).2 = none ∧
    (compile fresh_compiler cfg01 "config.json"
        ["qubit q0", "Map q0 0", "Init_all", "Measure q0"]).1.timing_grid =
      some [{},
        { pre_waiting_time := some (Param.int 200000),
          parallel_events := [⟨3, EventType.MSMT, "measure", [Param.int 0], 0⟩] }] ∧
    ({} : time_point).pre_waiting_time ≠ some (Param.int INIT_WAITING_TIME) := by
  decide

/-- Claim C9, counterexample: invoking `compile` twice in succession on
the same compiler object with the same valid source and configuration does
not produce the same result: the first invocation succeeds, the second
fails with the `Redefinition` `SyntaxError` at line 0, because
`declared_qubits` and `qubit_map` are initialised in `__init__`, not in
`compile`, and persist across invocations. -/
theorem C9_counterexample :
    (compile fresh_compiler cfg01 "config.json" c2_source).2 = none ∧
    (compile (compile fresh_compiler cfg01 "config.json" c2_source).1 cfg01 "config.json"
        c2_source).2 =
      some (.syntaxError "Redefinition of qubit." (some "test.qasm") (some 0)) ∧
    (compile fresh_compiler cfg01 "config.json" c2_source).2 ≠
      (compile (compile fresh_compiler cfg01 "config.json" c2_source).1 cfg01 "config.json"
        c2_source).2 := by
  decide

/-- Claim C9, amended: the declared-qubit set and qubit map belong to the
compiler object, not to a single `compile` invocation; after a successful
compile of the round-trip program they persist on the object, and a second
compile of the same source on the same object fails with the
`Redefinition` `SyntaxError` referencing the declaring line. -/
theorem C9_state_persists :
    (compile fresh_compiler cfg01 "config.json" c2_source).1.declared_qubits =
      [Param.str "q0", Param.str "q1"] ∧
    (compile fresh_compiler cfg01 "config.json" c2_source).1.qubit_map =
      [(Param.str "q0", 0), (Param.str "q1", 1)] ∧
    (compile (compile fresh_compiler cfg01 "config.json" c2_source).1 cfg01 "config.json"
        c2_source).2 =
      some (.syntaxError "Redefinition of qubit." (some "test.qasm") (some 0)) := by
  decide

/-- Claim C1, amended: for every declare/map sequence the Qubit Resolver
accepts without error, the resulting QubitMap is a well-formed function —
no logical qubit is mapped twice (its keys are distinct) and every
physical qubit used is a member of the configured physical qubit list —
but it need not be injective: distinct logical qubits may share a
physical qubit, since `add_qubit_map` never checks that the physical
qubit is unclaimed. -/
theorem C1_qubit_map_well_formed (phys : List Int) (fname : Option String)
    (raw_event_list lst2 : List (List qasm_event)) (st st2 : ResolverState)
    (h : build_qubit_map phys fname raw_event_list st = .ok (lst2, st2))
    (hwf : QubitMapWellFormed phys st.qubit_map) :
    QubitMapWellFormed phys st2.qubit_map := by
  unfold build_qubit_map at h
  exact build_qubit_map_loop_wf h hwf

/-- The raw events of `qubit q0 q1; map q0 0; map q1 0` as produced by the
Event Parser. -/
def c1_events : List (List qasm_event) :=
  [[⟨0, EventType.DECLARE, "qubit", [Param.str "q0", Param.str "q1"], 0⟩],
   [⟨1, EventType.MAP, "map", [Param.str "q0", Param.str "0"], 0⟩],
   [⟨2, EventType.MAP, "map", [Param.str "q1", Param.str "0"], 0⟩]]

/-- Witness for `C1_qubit_map_well_formed` at a concrete accepted run. -/
theorem C1_qubit_map_well_formed_witness :
    QubitMapWellFormed [0, 1] [(Param.str "q0", 0), (Param.str "q1", 0)] :=
  C1_qubit_map_well_formed [0, 1] (some "test.qasm") c1_events [] ⟨[], []⟩
    ⟨[Param.str "q0", Param.str "q1"], [(Param.str "q0", 0), (Param.str "q1", 0)]⟩
    (by decide) (by constructor <;> simp)

/-- Claim C3, amended: with a malformed configuration (cycle time not a
positive number) compilation fails during configuration loading before
any source line is parsed into events — `raw_event_list` and the timing
grid are never populated — but after the source file has been read:
`raw_lines` already holds every line of the file at the failure. -/
theorem C3_config_error_before_parsing (cfg : ConfigData) (config_filename : String)
    (src : List String)
    (h : ¬ 0 < cfg.hardware_specification.cycle_time) :
    ((compile fresh_compiler cfg config_filename src).2).isSome = true ∧
    (compile fresh_compiler cfg config_filename src).1.raw_event_list = none ∧
    (compile fresh_compiler cfg config_filename src).1.timing_grid = none ∧
    (compile fresh_compiler cfg config_filename src).1.raw_lines = some (read_file src).1 := by
  have hlc : ∃ e, load_config cfg config_filename = .error e := by
    unfold load_config
    cases hu : load_user_ops config_filename cfg.operation_dictionary with
    | error e => exact ⟨e, rfl⟩
    | ok user =>
      exact ⟨.valueError "cycle time in the configuration file is not a positive number.",
        by simp [h]⟩
  obtain ⟨e, he⟩ := hlc
  simp [compile, fresh_compiler, he]

/-- Witness for `C3_config_error_before_parsing` at cycle time `-1`. -/
theorem C3_config_error_before_parsing_witness :
    ((compile fresh_compiler ⟨[], ⟨[0, 1], -1⟩⟩ "config.json" ["qubit q0"]).2).isSome = true ∧
    (compile fresh_compiler ⟨[], ⟨[0, 1], -1⟩⟩ "config.json" ["qubit q0"]).1.raw_event_list =
      none ∧
    (compile fresh_compiler ⟨[], ⟨[0, 1], -1⟩⟩ "config.json" ["qubit q0"]).1.timing_grid =
      none ∧
    (compile fresh_compiler ⟨[], ⟨[0, 1], -1⟩⟩ "config.json" ["qubit q0"]).1.raw_lines =
      some (read_file ["qubit q0"]).1 :=
  C3_config_error_before_parsing ⟨[], ⟨[0, 1], -1⟩⟩ "config.json" ["qubit q0"] (by decide)

namespace QasmCompiler

theorem map_qubits_line_types {qmap : List (Param × Int)} :
    ∀ {evs acc tline : List qasm_event},
      map_qubits_line qmap acc evs = .ok tline →
      (∀ ev ∈ acc, ev.event_type ≠ EventType.DECLARE ∧ ev.event_type ≠ EventType.MAP) →
      ∀ ev ∈ tline, ev.event_type ≠ EventType.DECLARE ∧ ev.event_type ≠ EventType.MAP := by
  intro evs
  induction evs with
  | nil =>
    intro acc tline h hacc
    unfold map_qubits_line at h
    cases h
    exact hacc
  | cons ev rest ih =>
    intro acc tline h hacc
    unfold map_qubits_line at h
    split at h
    case isTrue hw =>
      refine ih h ?_
      intro e he
      rcases List.mem_append.mp he with he | he
      · exact hacc e he
      · simp only [List.mem_singleton] at he
        subst he
        constructor <;> simp [hw]
    case isFalse hnw =>
      split at h
      case isTrue hch =>
        cases hr : resolve_params qmap ev.params with
        | error e2 => rw [hr] at h; exact absurd h (by simp)
        | ok ps =>
          rw [hr] at h
          refine ih h ?_
          intro e he
          rcases List.mem_append.mp he with he | he
          · exact hacc e he
          · simp only [List.mem_singleton] at he
            subst he
            rcases hch with hc | hc | hc <;> constructor <;> simp [hc]
      case isFalse => exact ih h hacc

end QasmCompiler

/-- Claim C4 (confirmed): for every input event stream, the stream
`map_qubits` hands to the Timing Assigner contains no Declare and no Map
event — only Wait events and rewritten channel-operation events are ever
appended to `timing_event_list`. -/
theorem C4_no_declare_map_reaches_timing (qmap : List (Param × Int)) :
    ∀ (lst out : List (List qasm_event)), map_qubits qmap lst = .ok out →
      ∀ evs ∈ out, ∀ ev ∈ evs,
        ev.event_type ≠ EventType.DECLARE ∧ ev.event_type ≠ EventType.MAP := by
  intro lst
  induction lst with
  | nil =>
    intro out h
    unfold map_qubits at h
    cases h
    intro evs hevs
    exact absurd hevs (List.not_mem_nil _)
  | cons evs rest ih =>
    intro out h
    unfold map_qubits at h
    cases hline : map_qubits_line qmap [] evs with
    | error e => rw [hline] at h; exact absurd h (by simp)
    | ok tline =>
      rw [hline] at h
      cases hrest : map_qubits qmap rest with
      | error e => rw [hrest] at h; exact absurd h (by simp)
      | ok r =>
        rw [hrest] at h
        cases h
        intro evs2 hevs2
        rcases List.mem_cons.mp hevs2 with rfl | hm
        · exact map_qubits_line_types hline (by intro e he; exact absurd he (List.not_mem_nil _))
        · exact ih r hrest evs2 hm

/-- Witness for `C4_no_declare_map_reaches_timing`: a concrete stream with
a Measure line and a Declare line; the output stream contains the
rewritten Measure event (and the Declare is gone), and that event is
neither a Declare nor a Map event. -/
theorem C4_no_declare_map_reaches_timing_witness :
    (qasm_event.mk 4 EventType.MSMT "measure" [Param.int 0] 0).event_type ≠
      EventType.DECLARE ∧
    (qasm_event.mk 4 EventType.MSMT "measure" [Param.int 0] 0).event_type ≠
      EventType.MAP :=
  C4_no_declare_map_reaches_timing [(Param.str "q0", 0)]
    [[qasm_event.mk 4 EventType.MSMT "measure" [Param.str "q0"] 0],
     [qasm_event.mk 0 EventType.DECLARE "qubit" [Param.str "q0"] 0]]
    [[qasm_event.mk 4 EventType.MSMT "measure" [Param.int 0] 0], []]
    (by decide)
    [qasm_event.mk 4 EventType.MSMT "measure" [Param.int 0] 0] (by decide)
    (qasm_event.mk 4 EventType.MSMT "measure" [Param.int 0] 0) (by decide)

/-- Claim C10, counterexample: the line `i 5 |` ends in the parallel
separator and therefore contains an empty parallel segment, yet the Event
Parser raises a `SyntaxError` carrying the line number (the wait
operation `i` on a multi-segment line fails the single-line-exclusive
check before the empty segment is reached), not a `ValueError`. -/
theorem C10_counterexample :
    line_to_event_line default_loaded_dict (some "f") ⟨7, "i 5 |"⟩ =
      .error (.syntaxError "QASM instruction i should exclusively occupy a line."
        (some "f") (some 7)) ∧
    ∀ msg, line_to_event_line default_loaded_dict (some "f") ⟨7, "i 5 |"⟩ ≠
      .error (.valueError msg) := by
  have h1 : line_to_event_line default_loaded_dict (some "f") ⟨7, "i 5 |"⟩ =
      .error (.syntaxError "QASM instruction i should exclusively occupy a line."
        (some "f") (some 7)) := by decide
  refine ⟨h1, fun msg h => ?_⟩
  rw [h1] at h
  exact absurd h (by simp)

/-- Claim C10, amended: an empty parallel segment makes the Event Parser
raise the bare `ValueError` (carrying no source line number) only when it
is reached before any failing operation segment; in particular a line
whose first parallel segment is empty always raises it.  When an earlier
segment fails validation first — for example a single-line-exclusive
operation combined with the empty segment, as in `i 5 |` — that
`SyntaxError` (with line number) preempts the `ValueError`. -/
theorem C10_empty_first_segment (opDict : List (String × OpSpec)) (fname : Option String)
    (line : prog_line) (rest : List String)
    (hsegs : get_parallel_qasm_ops line.content = "" :: rest) :
    line_to_event_line opDict fname line =
      .error (.valueError "QASM operation cannot be empty") := by
  simp only [line_to_event_line, hsegs]
  simp [line_to_event_ops, parse_op, get_qasm_op_name]

/-- Witness for `C10_empty_first_segment` at the line `| measure q0`. -/
theorem C10_empty_first_segment_witness :
    line_to_event_line default_loaded_dict (some "f") ⟨2, "| measure q0"⟩ =
      .error (.valueError "QASM operation cannot be empty") :=
  C10_empty_first_segment default_loaded_dict (some "f") ⟨2, "| measure q0"⟩
    ["measure q0"] (by decide)

/-- Claim C7, counterexample: for the wait instruction `i -1`, whose
operand is a negative integer token, the Event Parser does not fail with
a `SyntaxError`: the source builds a `ValueError` carrying the line
number but then executes `raise se` where `se` was never assigned, so the
raised error is an `UnboundLocalError` with no diagnostics at all. -/
theorem C7_counterexample :
    line_to_event_line default_loaded_dict (some "f") ⟨5, "i -1"⟩ =
      .error (.unboundLocal "se") ∧
    ∀ msg fn ln, line_to_event_line default_loaded_dict (some "f") ⟨5, "i -1"⟩ ≠
      .error (.syntaxError msg fn ln) := by
  have h1 : line_to_event_line default_loaded_dict (some "f") ⟨5, "i -1"⟩ =
      .error (.unboundLocal "se") := by decide
  refine ⟨h1, fun msg fn ln h => ?_⟩
  rw [h1] at h
  exact absurd h (by simp)

/-- Claim C7, amended: for a one-operand wait instruction standing alone
on its line, an operand token that is not an integer at all makes the
Event Parser fail with a `SyntaxError` carrying the source line number;
an operand token that parses as a negative integer instead raises an
`UnboundLocalError` (the source constructs a `ValueError` carrying the
line number but raises the never-assigned name `se`), not a
`SyntaxError`. -/
theorem C7_wait_operand (opDict : List (String × OpSpec)) (fname : Option String)
    (line : prog_line) (s t tok : String) (opSpec : OpSpec)
    (hsegs : get_parallel_qasm_ops line.content = [s])
    (hname : get_qasm_op_name s = .ok t)
    (hl : opDict.lookup t = some opSpec)
    (hwait : opSpec.type = EventType.WAIT)
    (hone : opSpec.parameters = 1)
    (hq : t ≠ "qubit")
    (hparams : get_qasm_op_params s = .ok [tok]) :
    (parseInt? tok = none →
      line_to_event_line opDict fname line =
        .error (.syntaxError ("parameter " ++ tok ++ " is not an integer.") fname
          (some line.number))) ∧
    (∀ n, parseInt? tok = some n → n < 0 →
      line_to_event_line opDict fname line = .error (.unboundLocal "se")) := by
  have key : ∀ r : Except PyError (List qasm_event),
      (match parse_op opDict fname line.number 1 s with
        | .error err => .error err
        | .ok ev =>
          match line_to_event_ops opDict fname line.number 1 [] with
          | .error err => .error err
          | .ok evs => .ok (ev :: evs)) = r →
      line_to_event_line opDict fname line = r := by
    intro r hr
    simpa [line_to_event_line, hsegs, line_to_event_ops] using hr
  have hpo : parse_op opDict fname line.number 1 s =
      (match parseInt? tok with
       | none =>
         .error (.syntaxError ("parameter " ++ tok ++ " is not an integer.") fname
           (some line.number))
       | some n =>
         if n < 0 then .error (.unboundLocal "se")
         else .ok (qasm_event.mk line.number opSpec.type t [Param.int n] 0)) := by
    simp [parse_op, hname, hl, hparams, hwait, hone, hq]
  constructor
  · intro hn
    refine key _ ?_
    rw [hpo, hn]
  · intro n hn hneg
    refine key _ ?_
    rw [hpo, hn]
    simp [if_pos hneg, line_to_event_ops]

/-- Witness for `C7_wait_operand` at the line `i x7` (non-integer wait
operand). -/
theorem C7_wait_operand_witness :
    (parseInt? "x7" = none →
      line_to_event_line default_loaded_dict (some "f") ⟨5, "i x7"⟩ =
        .error (.syntaxError ("parameter " ++ "x7" ++ " is not an integer.") (some "f")
          (some 5))) ∧
    (∀ n, parseInt? "x7" = some n → n < 0 →
      line_to_event_line default_loaded_dict (some "f") ⟨5, "i x7"⟩ =
        .error (.unboundLocal "se")) :=
  C7_wait_operand default_loaded_dict (some "f") ⟨5, "i x7"⟩ "i x7" "i" "x7"
    ⟨1, EventType.WAIT, 0⟩ (by decide) (by decide) (by decide) (by decide) (by decide)
    (by decide) (by decide)

namespace QasmCompiler

theorem parse_op_single_line_error (opDict : List (String × OpSpec)) (fname : Option String)
    (lineNo numEvents : Nat) (s t : String) (opSpec : OpSpec)
    (hname : get_qasm_op_name s = .ok t)
    (hl : opDict.lookup t = some opSpec)
    (hsl : is_single_line_op opSpec.type = true)
    (hnum : numEvents ≠ 1) :
    parse_op opDict fname lineNo numEvents s =
      .error (.syntaxError ("QASM instruction " ++ t ++ " should exclusively occupy a line.")
        fname (some lineNo)) := by
  simp [parse_op, hname, hl, hsl, hnum]

theorem parse_op_ok_or_syntax (opDict : List (String × OpSpec)) (fname : Option String)
    (lineNo numEvents : Nat) (s t : String)
    (hname : get_qasm_op_name s = .ok t)
    (hnum : numEvents ≠ 1) :
    (∃ ev, parse_op opDict fname lineNo numEvents s = .ok ev) ∨
    (∃ msg, parse_op opDict fname lineNo numEvents s =
      .error (.syntaxError msg fname (some lineNo))) := by
  have hs : s ≠ "" := by
    intro hempty
    rw [hempty] at hname
    simp [get_qasm_op_name] at hname
  have hps : get_qasm_op_params s = .ok (pySplitWS s).tail := by
    simp [get_qasm_op_params, hs]
  cases hl : opDict.lookup t with
  | none =>
    refine Or.inr ⟨"unsuppported QASM operation " ++ t ++ ".", ?_⟩
    simp [parse_op, hname, hl]
  | some opSpec =>
    have hpo : parse_op opDict fname lineNo numEvents s =
        (if is_single_line_op opSpec.type = true ∧ numEvents ≠ 1 then
          .error (.syntaxError ("QASM instruction " ++ t ++ " should exclusively occupy a line.")
            fname (some lineNo))
        else if t = "qubit" ∧ (pySplitWS s).tail.length < 1 then
          .error (.syntaxError
            "the QASM instruction qubit should contain at least one parameter as the declared qubit."
            fname (some lineNo))
        else if t ≠ "qubit" ∧ ((pySplitWS s).tail.length : Int) ≠ opSpec.parameters then
          .error (.syntaxError
            ("unexpected number of parameters for the QASM instruction " ++ t ++ ".")
            fname (some lineNo))
        else if opSpec.type = EventType.WAIT ∧ opSpec.parameters = 1 then
          (match (pySplitWS s).tail with
           | [tok] =>
             (match parseInt? tok with
              | none =>
                .error (.syntaxError ("parameter " ++ tok ++ " is not an integer.") fname
                  (some lineNo))
              | some n =>
                if n < 0 then .error (.unboundLocal "se")
                else .ok (qasm_event.mk lineNo opSpec.type t [Param.int n] 0))
           | _ => .error (.valueError "values to unpack"))
        else .ok (qasm_event.mk lineNo opSpec.type t ((pySplitWS s).tail.map Param.str) 0)) := by
      simp only [parse_op, hname, hl, hps]
    by_cases h1 : is_single_line_op opSpec.type = true ∧ numEvents ≠ 1
    · exact Or.inr ⟨_, by rw [hpo, if_pos h1]⟩
    · by_cases h2 : t = "qubit" ∧ (pySplitWS s).tail.length < 1
      · exact Or.inr ⟨_, by rw [hpo, if_neg h1, if_pos h2]⟩
      · by_cases h3 : t ≠ "qubit" ∧ ((pySplitWS s).tail.length : Int) ≠ opSpec.parameters
        · exact Or.inr ⟨_, by rw [hpo, if_neg h1, if_neg h2, if_pos h3]⟩
        · have h4 : ¬ (opSpec.type = EventType.WAIT ∧ opSpec.parameters = 1) := by
            rintro ⟨hw, _⟩
            exact h1 ⟨by simp [is_single_line_op, hw], hnum⟩
          exact Or.inl ⟨_, by rw [hpo, if_neg h1, if_neg h2, if_neg h3, if_neg h4]⟩

theorem line_ops_single_line_error (opDict : List (String × OpSpec)) (fname : Option String)
    (lineNo numEvents : Nat) (hnum : numEvents ≠ 1) :
    ∀ segs : List String,
      (∀ s ∈ segs, ∃ t, get_qasm_op_name s = .ok t) →
      (∃ s ∈ segs, ∃ t opSpec, get_qasm_op_name s = .ok t ∧
        opDict.lookup t = some opSpec ∧ is_single_line_op opSpec.type = true) →
      ∃ msg, line_to_event_ops opDict fname lineNo numEvents segs =
        .error (.syntaxError msg fname (some lineNo)) := by
  intro segs
  induction segs with
  | nil =>
    rintro _ ⟨s, hs, _⟩
    exact absurd hs (List.not_mem_nil s)
  | cons e rest ih =>
    intro hall hex
    obtain ⟨t, ht⟩ := hall e (List.mem_cons_self e rest)
    rcases parse_op_ok_or_syntax opDict fname lineNo numEvents e t ht hnum with
      ⟨ev, hok⟩ | ⟨msg, herr⟩
    · have hex2 : ∃ s ∈ rest, ∃ t2 opSpec, get_qasm_op_name s = .ok t2 ∧
          opDict.lookup t2 = some opSpec ∧ is_single_line_op opSpec.type = true := by
        obtain ⟨s, hsmem, t2, opSpec, hn2, hl2, hsl2⟩ := hex
        rcases List.mem_cons.mp hsmem with rfl | hmem
        · exfalso
          have hb := parse_op_single_line_error opDict fname lineNo numEvents s t2 opSpec
            hn2 hl2 hsl2 hnum
          rw [hb] at hok
          exact absurd hok (by simp)
        · exact ⟨s, hmem, t2, opSpec, hn2, hl2, hsl2⟩
      obtain ⟨msg, hrec⟩ := ih (fun s hs => hall s (List.mem_cons_of_mem e hs)) hex2
      refine ⟨msg, ?_⟩
      simp [line_to_event_ops, hok, hrec]
    · refine ⟨msg, ?_⟩
      simp [line_to_event_ops, herr]

end QasmCompiler

/-- Claim C6 (confirmed): for every source line that combines a Wait,
Declare, or Map category operation with any other operation via the
parallel separator (at least two segments, each a well-formed operation
invocation), the Event Parser fails with a `SyntaxError` carrying that
line's number — independent of operand validity, since every check the
parser can fail on such a line (unknown name, single-line-exclusive
violation, arity) raises a `SyntaxError` with the line number, and the
single-line-exclusive operation itself always does. -/
theorem C6_single_line_exclusive (opDict : List (String × OpSpec)) (fname : Option String)
    (line : prog_line) (segs : List String)
    (hsegs : get_parallel_qasm_ops line.content = segs)
    (hlen : 2 ≤ segs.length)
    (hall : ∀ s ∈ segs, ∃ t, get_qasm_op_name s = .ok t)
    (hex : ∃ s ∈ segs, ∃ t opSpec, get_qasm_op_name s = .ok t ∧
      opDict.lookup t = some opSpec ∧ is_single_line_op opSpec.type = true) :
    ∃ msg, line_to_event_line opDict fname line =
      .error (.syntaxError msg fname (some line.number)) := by
  have hnum : segs.length ≠ 1 := by omega
  have hr := line_ops_single_line_error opDict fname line.number segs.length hnum segs hall hex
  simpa [line_to_event_line, hsegs] using hr

/-- Witness for `C6_single_line_exclusive` at the line `i 5 | measure q0`. -/
theorem C6_single_line_exclusive_witness :
    ∃ msg, line_to_event_line default_loaded_dict (some "f") ⟨3, "i 5 | measure q0"⟩ =
      .error (.syntaxError msg (some "f") (some 3)) :=
  C6_single_line_exclusive default_loaded_dict (some "f") ⟨3, "i 5 | measure q0"⟩
    ["i 5", "measure q0"] (by decide) (by decide)
    (by
      intro s hs
      rcases List.mem_cons.mp hs with rfl | hs
      · exact ⟨"i", by decide⟩
      rcases List.mem_cons.mp hs with rfl | hs
      · exact ⟨"measure", by decide⟩
      exact absurd hs (List.not_mem_nil s))
    ⟨"i 5", by decide, "i", ⟨1, EventType.WAIT, 0⟩, by decide, by decide, by decide⟩

namespace QasmCompiler

theorem timing_step_wait_char {opDict : List (String × OpSpec)} {fname : Option String}
    {grid : List time_point} {tp : time_point} {ev : qasm_event}
    {g1 : List time_point} {t1 : time_point} {opSpec : OpSpec}
    (hw : ev.event_type = EventType.WAIT)
    (hl : opDict.lookup ev.name = some opSpec)
    (h : timing_step opDict fname grid tp ev = .ok (g1, t1)) :
    g1 = grid ++ [tp] ∧
    (opSpec.parameters = 1 → t1.pre_waiting_time = ev.params.head?) ∧
    (opSpec.parameters ≠ 1 → ev.name = "init_all" →
      t1.pre_waiting_time = some (Param.int INIT_WAITING_TIME)) := by
  unfold timing_step at h
  rw [if_pos hw, hl] at h
  dsimp only at h
  by_cases hp : opSpec.parameters = 1
  · rw [if_pos hp] at h
    cases hh : ev.params.head? with
    | none => rw [hh] at h; exact absurd h (by simp)
    | some p =>
      rw [hh] at h
      cases h
      refine ⟨rfl, fun _ => rfl, fun hnp _ => absurd hp hnp⟩
  · rw [if_neg hp] at h
    by_cases hi : ev.name = "init_all"
    · rw [if_pos hi] at h
      cases h
      exact ⟨rfl, fun h1 => absurd h1 hp, fun _ _ => rfl⟩
    · rw [if_neg hi] at h
      exact absurd h (by simp)

theorem timing_step_other_char {opDict : List (String × OpSpec)} {fname : Option String}
    {grid : List time_point} {tp : time_point} {ev : qasm_event}
    {g1 : List time_point} {t1 : time_point}
    (hw : ¬ ev.event_type = EventType.WAIT)
    (h : timing_step opDict fname grid tp ev = .ok (g1, t1)) :
    g1 = grid ∧ t1.pre_waiting_time = tp.pre_waiting_time := by
  unfold timing_step at h
  rw [if_neg hw] at h
  cases h
  exact ⟨rfl, rfl⟩

theorem timing_step_wait_grid {opDict : List (String × OpSpec)} {fname : Option String}
    {grid : List time_point} {tp : time_point} {ev : qasm_event}
    {g1 : List time_point} {t1 : time_point}
    (hw : ev.event_type = EventType.WAIT)
    (h : timing_step opDict fname grid tp ev = .ok (g1, t1)) :
    g1 = grid ++ [tp] := by
  unfold timing_step at h
  rw [if_pos hw] at h
  cases hl : opDict.lookup ev.name with
  | none => rw [hl] at h; exact absurd h (by simp)
  | some opSpec =>
    rw [hl] at h
    dsimp only at h
    split at h
    · cases hh : ev.params.head? with
      | none => rw [hh] at h; exact absurd h (by simp)
      | some p => rw [hh] at h; cases h; rfl
    · split at h
      · cases h; rfl
      · exact absurd h (by simp)

theorem timing_loop_structure {opDict : List (String × OpSpec)} {fname : Option String} :
    ∀ {evs : List qasm_event} {grid : List time_point} {tp : time_point}
      {g : List time_point} {tpf : time_point},
      timing_loop opDict fname evs grid tp = .ok (g, tpf) →
      ∃ tp2 tail, g ++ [tpf] = grid ++ tp2 :: tail ∧
        tp2.pre_waiting_time = tp.pre_waiting_time := by
  intro evs
  induction evs with
  | nil =>
    intro grid tp g tpf h
    unfold timing_loop at h
    cases h
    exact ⟨tp, [], by simp, rfl⟩
  | cons ev rest ih =>
    intro grid tp g tpf h
    unfold timing_loop at h
    cases hstep : timing_step opDict fname grid tp ev with
    | error e => rw [hstep] at h; exact absurd h (by simp)
    | ok gt =>
      rw [hstep] at h
      obtain ⟨g1, t1⟩ := gt
      obtain ⟨tp2, tail, heq, hpre⟩ := ih h
      by_cases hw : ev.event_type = EventType.WAIT
      · have hg1 : g1 = grid ++ [tp] := timing_step_wait_grid hw hstep
        rw [hg1] at heq
        exact ⟨tp, tp2 :: tail, by rw [heq]; simp, rfl⟩
      · obtain ⟨hg1, ht1⟩ := timing_step_other_char hw hstep
        rw [hg1] at heq
        exact ⟨tp2, tail, heq, hpre.trans ht1⟩

theorem timing_loop_append {opDict : List (String × OpSpec)} {fname : Option String} :
    ∀ (l1 l2 : List qasm_event) (grid : List time_point) (tp : time_point),
      timing_loop opDict fname (l1 ++ l2) grid tp =
        (match timing_loop opDict fname l1 grid tp with
         | .error e => .error e
         | .ok gt => timing_loop opDict fname l2 gt.1 gt.2) := by
  intro l1
  induction l1 with
  | nil => intro l2 grid tp; simp [timing_loop]
  | cons ev rest ih =>
    intro l2 grid tp
    simp only [List.cons_append, timing_loop]
    cases hstep : timing_step opDict fname grid tp ev with
    | error e => simp
    | ok gt => obtain ⟨g1, t1⟩ := gt; simp [ih]

theorem timing_loop_lines_eq_flatten {opDict : List (String × OpSpec)} {fname : Option String} :
    ∀ (tel : List (List qasm_event)) (grid : List time_point) (tp : time_point),
      timing_loop_lines opDict fname tel grid tp =
        timing_loop opDict fname tel.flatten grid tp := by
  intro tel
  induction tel with
  | nil => intro grid tp; simp [timing_loop_lines, List.flatten_nil, timing_loop]
  | cons evs rest ih =>
    intro grid tp
    simp only [timing_loop_lines, List.flatten_cons, timing_loop_append]
    cases hline : timing_loop opDict fname evs grid tp with
    | error e => simp
    | ok gt => obtain ⟨g1, t1⟩ := gt; simp [ih]

end QasmCompiler

/-- Claim C8, amended: for every event stream the Timing Assigner
accepts whose first event is a Wait event, the first slot of the grid is
the initial fresh `time_point` with no pre-wait; it is the second slot —
the one opened by that first Wait event — whose pre-wait equals the wait
operand (one-parameter form) or `INIT_WAITING_TIME = 200000` (the
zero-parameter `init_all` form). -/
theorem C8_first_wait_slot (opDict : List (String × OpSpec)) (fname : Option String)
    (tel : List (List qasm_event)) (ev : qasm_event) (rest : List qasm_event)
    (opSpec : OpSpec) (grid : List time_point)
    (hflat : tel.flatten = ev :: rest)
    (hw : ev.event_type = EventType.WAIT)
    (hl : opDict.lookup ev.name = some opSpec)
    (hok : assign_timing_to_events opDict fname tel = .ok grid) :
    ∃ tp1 tail, grid = {} :: tp1 :: tail ∧
      (opSpec.parameters = 1 → tp1.pre_waiting_time = ev.params.head?) ∧
      (opSpec.parameters ≠ 1 → ev.name = "init_all" →
        tp1.pre_waiting_time = some (Param.int INIT_WAITING_TIME)) := by
  unfold assign_timing_to_events at hok
  rw [timing_loop_lines_eq_flatten, hflat] at hok
  cases hloop : timing_loop opDict fname (ev :: rest) [] {} with
  | error e => rw [hloop] at hok; exact absurd hok (by simp)
  | ok gt =>
    rw [hloop] at hok
    obtain ⟨gf, tpf⟩ := gt
    have hgrid : grid = gf ++ [tpf] := by
      have := hok
      simp only [] at this
      exact (Except.ok.injEq _ _).mp this.symm
    unfold timing_loop at hloop
    cases hstep : timing_step opDict fname [] {} ev with
    | error e => rw [hstep] at hloop; exact absurd hloop (by simp)
    | ok gt1 =>
      rw [hstep] at hloop
      obtain ⟨g1, t1⟩ := gt1
      obtain ⟨hg1, hp1, hp2⟩ := timing_step_wait_char hw hl hstep
      obtain ⟨tp2, tail, heq, hpre⟩ := timing_loop_structure hloop
      rw [hg1] at heq
      refine ⟨tp2, tail, ?_, fun h1 => hpre.trans (hp1 h1), fun h1 h2 => hpre.trans (hp2 h1 h2)⟩
      rw [hgrid, heq]
      simp

/-- Witness for `C8_first_wait_slot` on an init-all stream followed by one
measurement. -/
theorem C8_first_wait_slot_witness :
    ∃ tp1 tail,
      ([{}, time_point.mk none none (some (Param.int 200000))
          [qasm_event.mk 4 EventType.MSMT "measure" [Param.int 0] 0]] : List time_point) =
        {} :: tp1 :: tail ∧
      ((OpSpec.mk 0 EventType.WAIT 0).parameters = 1 →
        tp1.pre_waiting_time = (qasm_event.mk 3 EventType.WAIT "init_all" [] 0).params.head?) ∧
      ((OpSpec.mk 0 EventType.WAIT 0).parameters ≠ 1 →
        (qasm_event.mk 3 EventType.WAIT "init_all" [] 0).name = "init_all" →
        tp1.pre_waiting_time = some (Param.int INIT_WAITING_TIME)) :=
  C8_first_wait_slot default_loaded_dict (some "f")
    [[qasm_event.mk 3 EventType.WAIT "init_all" [] 0],
     [qasm_event.mk 4 EventType.MSMT "measure" [Param.int 0] 0]]
    (qasm_event.mk 3 EventType.WAIT "init_all" [] 0)
    [qasm_event.mk 4 EventType.MSMT "measure" [Param.int 0] 0]
    (OpSpec.mk 0 EventType.WAIT 0)
    [{}, time_point.mk none none (some (Param.int 200000))
      [qasm_event.mk 4 EventType.MSMT "measure" [Param.int 0] 0]]
    (by decide) (by decide) (by decide) (by decide)
